import Mathlib

/-!
Verification of the Flux-Gate flash-sale engine core against its
specification.  The development shallowly embeds:

* the counter-store model and the atomic reservation script
  (`packages/shared/src/redis.ts`),
* the ingestion service's `POST /order` hot path
  (`apps/ingestion-api/src/index.ts`, first program), and
* the fulfillment worker's `eachMessage` handler
  (`apps/ingestion-api/src/index.ts`, second program).

The counter store is a key-value map from string keys to integers (the
source stores decimal strings and converts with `tonumber` / `toString`;
every value it stores is an integer).  Key expiry is not part of the value
state: the calls that attach a TTL are recorded in the ingestion handler's
action trace, so statements about expiry read the trace.
-/

namespace FluxGate

/-- The counter store (Redis): an association list of keys to integer
values; `get` reads the most recent binding. -/
structure Redis where
  kv : List (String × Int)
deriving DecidableEq

/-- Redis GET (nil for a missing key). -/
def Redis.get (r : Redis) (k : String) : Option Int :=
  (r.kv.find? (fun e => e.1 == k)).map (fun e => e.2)

/-- Redis SET. -/
def Redis.set (r : Redis) (k : String) (v : Int) : Redis :=
  ⟨(k, v) :: r.kv⟩

/-- Redis INCR: a missing key counts as 0; returns the incremented value. -/
def Redis.incr (r : Redis) (k : String) : Int × Redis :=
  ((r.get k).getD 0 + 1, r.set k ((r.get k).getD 0 + 1))

/-- Redis DECRBY: a missing key counts as 0; stores the decremented value. -/
def Redis.decrby (r : Redis) (k : String) (n : Int) : Redis :=
  r.set k ((r.get k).getD 0 - n)

/-- The per-product stock key, `product:${productId}:stock`. -/
def stockKey (productId : String) : String :=
  "product:" ++ productId ++ ":stock"

/-- The per-second rate-limit key, `rate:${currentSecond}`. -/
def rateKey (second : Nat) : String :=
  "rate:" ++ toString second

/-- The idempotency-marker key, `idempotency:${idempotencyKey}`. -/
def idemKey (token : String) : String :=
  "idempotency:" ++ token

/-- The Lua script of `decrementStock`:
`current = tonumber(redis.call('get', stockKey) or "0")`;
if `current >= qty` then `decrby` and return 1, else return 0. -/
def decrementStockScript (r : Redis) (key : String) (qty : Int) : Int × Redis :=
  let current := (r.get key).getD 0
  if current ≥ qty then (1, r.decrby key qty) else (0, r)

/-- `decrementStock(productId, quantity)`: runs the atomic script on the
product's stock key and reports whether the script returned 1. -/
def decrementStock (r : Redis) (productId : String) (quantity : Int) : Bool × Redis :=
  let res := decrementStockScript r (stockKey productId) quantity
  (res.1 == 1, res.2)

/-- `initStock(productId, quantity)`: overwrites the product's stock key. -/
def initStock (r : Redis) (productId : String) (quantity : Int) : Redis :=
  r.set (stockKey productId) quantity

/-- The counter-store stock a reservation decision sees for a product
(a missing key counts as 0, exactly as the script's `or "0"` reads it). -/
def currentStock (r : Redis) (productId : String) : Int :=
  (r.get (stockKey productId)).getD 0

/-- A sequence of `n` calls `decrementStock(productId, 1)` against the same
store; returns the final store and how many calls returned success. -/
def runDecrements (r : Redis) (p : String) (n : Nat) : Redis × Nat :=
  match n with
  | 0 => (r, 0)
  | Nat.succ m =>
    let step := decrementStock r p 1
    let rest := runDecrements step.2 p m
    (rest.1, (if step.1 then 1 else 0) + rest.2)

theorem Redis.get_set (r : Redis) (k k' : String) (v : Int) :
    (r.set k v).get k' = if k = k' then some v else r.get k' := by
  unfold Redis.get Redis.set
  by_cases h : k = k'
  · subst h
    rw [List.find?_cons_of_pos _ (by simp)]
    simp
  · rw [List.find?_cons_of_neg _ (by simp [h])]
    simp [h]

theorem rateKey_ne_stockKey (n : Nat) (p : String) : rateKey n ≠ stockKey p := by
  intro h
  have h2 := congrArg String.data h
  simp [rateKey, stockKey, String.data_append] at h2

theorem rateKey_ne_idemKey (n : Nat) (t : String) : rateKey n ≠ idemKey t := by
  intro h
  have h2 := congrArg String.data h
  simp [rateKey, idemKey, String.data_append] at h2

theorem idemKey_ne_stockKey (t p : String) : idemKey t ≠ stockKey p := by
  intro h
  have h2 := congrArg String.data h
  simp [idemKey, stockKey, String.data_append] at h2

theorem decrementStock_one (r : Redis) (p : String) :
    decrementStock r p 1 =
      if 1 ≤ currentStock r p then (true, r.set (stockKey p) (currentStock r p - 1))
      else (false, r) := by
  unfold decrementStock decrementStockScript Redis.decrby currentStock
  by_cases h : 1 ≤ (r.get (stockKey p)).getD 0
  · simp [ge_iff_le, h]
  · simp [ge_iff_le, h]

theorem currentStock_set_self (r : Redis) (p : String) (v : Int) :
    currentStock (r.set (stockKey p) v) p = v := by
  simp [currentStock, Redis.get_set]

theorem runDecrements_le (p : String) (n : Nat) :
    ∀ r : Redis, (runDecrements r p n).2 ≤ (currentStock r p).toNat := by
  induction n with
  | zero => intro r; simp [runDecrements]
  | succ m ih =>
    intro r
    by_cases h : 1 ≤ currentStock r p
    · have ihx := ih (r.set (stockKey p) (currentStock r p - 1))
      rw [currentStock_set_self] at ihx
      simp [runDecrements, decrementStock_one, h]
      omega
    · have ihx := ih r
      simp [runDecrements, decrementStock_one, h]
      omega

theorem runDecrements_nonneg (p : String) (n : Nat) :
    ∀ r : Redis, 0 ≤ currentStock r p → 0 ≤ currentStock (runDecrements r p n).1 p := by
  induction n with
  | zero => intro r h; simpa [runDecrements] using h
  | succ m ih =>
    intro r h
    by_cases h1 : 1 ≤ currentStock r p
    · have ihx := ih (r.set (stockKey p) (currentStock r p - 1))
        (by rw [currentStock_set_self]; omega)
      simpa [runDecrements, decrementStock_one, h1] using ihx
    · have ihx := ih r h
      simpa [runDecrements, decrementStock_one, h1] using ihx

/-- C1: `decrementStock(productId, 1)` succeeds iff the counter-store stock
is at least 1, in which case the stock drops by exactly 1; otherwise the
store is left unchanged.  Over any sequence of calls the number of successes
is bounded by the (non-negative part of the) starting stock, so from
`initStock(p, N)` at most `N` calls ever succeed and the stock never goes
negative. -/
theorem decrementStock_reservation_spec (r : Redis) (p : String) (n N : Nat) :
    ((decrementStock r p 1).1 = true ↔ 1 ≤ currentStock r p)
    ∧ ((decrementStock r p 1).1 = true →
        currentStock (decrementStock r p 1).2 p = currentStock r p - 1)
    ∧ ((decrementStock r p 1).1 = false → (decrementStock r p 1).2 = r)
    ∧ (runDecrements r p n).2 ≤ (currentStock r p).toNat
    ∧ (runDecrements (initStock r p (N : Int)) p n).2 ≤ N
    ∧ 0 ≤ currentStock (runDecrements (initStock r p (N : Int)) p n).1 p := by
  have hinit : currentStock (initStock r p (N : Int)) p = (N : Int) := by
    unfold initStock
    exact currentStock_set_self r p (N : Int)
  refine ⟨?_, ?_, ?_, runDecrements_le p n r, ?_, ?_⟩
  · rw [decrementStock_one]
    by_cases h : 1 ≤ currentStock r p <;> simp [h]
  · rw [decrementStock_one]
    by_cases h : 1 ≤ currentStock r p <;> simp [h, currentStock_set_self]
  · rw [decrementStock_one]
    by_cases h : 1 ≤ currentStock r p <;> simp [h]
  · have := runDecrements_le p n (initStock r p (N : Int))
    rw [hinit] at this
    omega
  · exact runDecrements_nonneg p n (initStock r p (N : Int)) (by rw [hinit]; omega)

/-! ### Ingestion service `POST /order` (apps/ingestion-api/src/index.ts)

The handler is embedded as a pure function of the request, the counter
store and an environment of oracle inputs (the wall clock read, the fresh
UUID and whether the durable-log produce is acknowledged).  Besides the
reply and the new store it returns the ordered trace of external calls it
issued, so temporal and frame claims read the trace. -/

/-- The JSON reply bodies the handler sends. -/
inductive RespBody where
  | errBody (error : String)
  | statusMsg (status : String) (msg : String)
deriving DecidableEq

/-- An HTTP reply: a redirect or a JSON body with a status code. -/
inductive Reply where
  | redirect (status : Nat) (location : String)
  | json (status : Nat) (body : RespBody)
deriving DecidableEq

/-- The status code of a reply. -/
def Reply.statusCode : Reply → Nat
  | Reply.redirect s _ => s
  | Reply.json s _ => s

/-- The reservation envelope produced to the durable log:
`{ orderId: uuidv4(), productId, userId, timestamp: Date.now() }`.
`productId`/`userId` come from the request body and may be absent. -/
structure Envelope where
  orderId : String
  productId : Option String
  userId : Option String
  timestamp : Nat
deriving DecidableEq

/-- One external call of the hot path, in execution order. -/
inductive Action where
  | incrKey (key : String)
  | expireKey (key : String) (seconds : Nat)
  | getKey (key : String)
  | evalDecrement (productId : String)
  | produce (topic : String) (message : Envelope) (acked : Bool)
  | setKey (key : String) (value : String) (ttlSeconds : Nat)
deriving DecidableEq

/-- The `POST /order` request: body fields and the `x-idempotency-key`
header, each possibly absent. -/
structure OrderRequest where
  productId : Option String
  userId : Option String
  idempotencyKey : Option String
deriving DecidableEq

/-- Oracle inputs of one handler run: `Math.floor(Date.now() / 1000)`, the
fresh `uuidv4()`, `Date.now()`, and whether `producer.send` resolves. -/
structure OrderEnv where
  currentSecond : Nat
  orderId : String
  timestampMs : Nat
  produceOk : Bool
deriving DecidableEq

/-- JS falsiness of the header value: `undefined` and `""` are falsy. -/
def jsFalsy : Option String → Bool
  | none => true
  | some s => s == ""

/-- JS template interpolation of a possibly-undefined string. -/
def jsShow : Option String → String
  | none => "undefined"
  | some s => s

/-- What one handler run returns to the verifier: the HTTP reply, the
counter store after the run, and the trace of external calls. -/
structure OrderResult where
  reply : Reply
  redis : Redis
  trace : List Action
deriving DecidableEq

/-- The admission (rate-limiting) prefix of every run's trace: the INCR of
the current-second bucket, followed by `EXPIRE rateKey 2` exactly when the
INCR returned 1. -/
def admissionTrace (env : OrderEnv) (r : Redis) : List Action :=
  if (r.incr (rateKey env.currentSecond)).1 == 1 then
    [Action.incrKey (rateKey env.currentSecond),
     Action.expireKey (rateKey env.currentSecond) 2]
  else
    [Action.incrKey (rateKey env.currentSecond)]

/-- The `POST /order` handler, line for line:
rate limiting (INCR, EXPIRE 2 on first increment, 302 redirect above 50),
the missing-idempotency-key 400, the duplicate 200, the atomic decrement,
then on success the Kafka produce followed by the idempotency SET EX 60 and
the 200, with a 500 when the produce fails and a 409 when the decrement
fails. -/
def orderHandler (env : OrderEnv) (req : OrderRequest) (r : Redis) : OrderResult :=
  let rk := rateKey env.currentSecond
  let rateRes := r.incr rk
  let r1 := rateRes.2
  let acts0 := admissionTrace env r
  if 50 < rateRes.1 then
    ⟨Reply.redirect 302 "http://localhost:4000", r1, acts0⟩
  else if jsFalsy req.idempotencyKey then
    ⟨Reply.json 400 (RespBody.errBody "Missing Idempotency Key"), r1, acts0⟩
  else
    let ik := idemKey (jsShow req.idempotencyKey)
    let acts1 := acts0 ++ [Action.getKey ik]
    if (r1.get ik).isSome then
      ⟨Reply.json 200 (RespBody.statusMsg "ignored" "Duplicate request"), r1, acts1⟩
    else
      let pid := jsShow req.productId
      let decRes := decrementStock r1 pid 1
      let r2 := decRes.2
      let acts2 := acts1 ++ [Action.evalDecrement pid]
      if decRes.1 then
        let msg : Envelope := ⟨env.orderId, req.productId, req.userId, env.timestampMs⟩
        if env.produceOk then
          ⟨Reply.json 200 (RespBody.statusMsg "success" "Order accepted"),
           r2.set ik 1,
           acts2 ++ [Action.produce "orders" msg true, Action.setKey ik "1" 60]⟩
        else
          ⟨Reply.json 500 (RespBody.statusMsg "error" "Order processing failed"),
           r2, acts2 ++ [Action.produce "orders" msg false]⟩
      else
        ⟨Reply.json 409 (RespBody.statusMsg "sold_out" "Inventory empty"), r2, acts2⟩

/-- Recognizes durable-log produce calls in a trace. -/
def isProduce : Action → Bool
  | Action.produce _ _ _ => true
  | _ => false

/-- Recognizes idempotency-marker writes in a trace. -/
def isMarkerWrite : Action → Bool
  | Action.setKey _ _ _ => true
  | _ => false

theorem orderHandler_throttled (env : OrderEnv) (req : OrderRequest) (r : Redis)
    (h : 50 < (r.incr (rateKey env.currentSecond)).1) :
    orderHandler env req r =
      ⟨Reply.redirect 302 "http://localhost:4000",
       (r.incr (rateKey env.currentSecond)).2, admissionTrace env r⟩ := by
  unfold orderHandler
  simp [h]

theorem orderHandler_badRequest (env : OrderEnv) (req : OrderRequest) (r : Redis)
    (h1 : ¬ 50 < (r.incr (rateKey env.currentSecond)).1)
    (h2 : jsFalsy req.idempotencyKey = true) :
    orderHandler env req r =
      ⟨Reply.json 400 (RespBody.errBody "Missing Idempotency Key"),
       (r.incr (rateKey env.currentSecond)).2, admissionTrace env r⟩ := by
  unfold orderHandler
  simp [h1, h2]

theorem orderHandler_duplicate (env : OrderEnv) (req : OrderRequest) (r : Redis)
    (h1 : ¬ 50 < (r.incr (rateKey env.currentSecond)).1)
    (h2 : jsFalsy req.idempotencyKey = false)
    (h3 : (((r.incr (rateKey env.currentSecond)).2).get
        (idemKey (jsShow req.idempotencyKey))).isSome = true) :
    orderHandler env req r =
      ⟨Reply.json 200 (RespBody.statusMsg "ignored" "Duplicate request"),
       (r.incr (rateKey env.currentSecond)).2,
       admissionTrace env r ++ [Action.getKey (idemKey (jsShow req.idempotencyKey))]⟩ := by
  unfold orderHandler
  simp [h1, h2, h3]

theorem orderHandler_soldOut (env : OrderEnv) (req : OrderRequest) (r : Redis)
    (h1 : ¬ 50 < (r.incr (rateKey env.currentSecond)).1)
    (h2 : jsFalsy req.idempotencyKey = false)
    (h3 : (((r.incr (rateKey env.currentSecond)).2).get
        (idemKey (jsShow req.idempotencyKey))).isSome = false)
    (h4 : (decrementStock ((r.incr (rateKey env.currentSecond)).2)
        (jsShow req.productId) 1).1 = false) :
    orderHandler env req r =
      ⟨Reply.json 409 (RespBody.statusMsg "sold_out" "Inventory empty"),
       (decrementStock ((r.incr (rateKey env.currentSecond)).2) (jsShow req.productId) 1).2,
       admissionTrace env r ++ [Action.getKey (idemKey (jsShow req.idempotencyKey)),
         Action.evalDecrement (jsShow req.productId)]⟩ := by
  unfold orderHandler
  simp [h1, h2, h3, h4]

theorem orderHandler_success (env : OrderEnv) (req : OrderRequest) (r : Redis)
    (h1 : ¬ 50 < (r.incr (rateKey env.currentSecond)).1)
    (h2 : jsFalsy req.idempotencyKey = false)
    (h3 : (((r.incr (rateKey env.currentSecond)).2).get
        (idemKey (jsShow req.idempotencyKey))).isSome = false)
    (h4 : (decrementStock ((r.incr (rateKey env.currentSecond)).2)
        (jsShow req.productId) 1).1 = true)
    (h5 : env.produceOk = true) :
    orderHandler env req r =
      ⟨Reply.json 200 (RespBody.statusMsg "success" "Order accepted"),
       ((decrementStock ((r.incr (rateKey env.currentSecond)).2) (jsShow req.productId) 1).2).set
         (idemKey (jsShow req.idempotencyKey)) 1,
       admissionTrace env r ++ [Action.getKey (idemKey (jsShow req.idempotencyKey)),
         Action.evalDecrement (jsShow req.productId),
         Action.produce "orders" ⟨env.orderId, req.productId, req.userId, env.timestampMs⟩ true,
         Action.setKey (idemKey (jsShow req.idempotencyKey)) "1" 60]⟩ := by
  unfold orderHandler
  simp [h1, h2, h3, h4, h5]

theorem orderHandler_produceFail (env : OrderEnv) (req : OrderRequest) (r : Redis)
    (h1 : ¬ 50 < (r.incr (rateKey env.currentSecond)).1)
    (h2 : jsFalsy req.idempotencyKey = false)
    (h3 : (((r.incr (rateKey env.currentSecond)).2).get
        (idemKey (jsShow req.idempotencyKey))).isSome = false)
    (h4 : (decrementStock ((r.incr (rateKey env.currentSecond)).2)
        (jsShow req.productId) 1).1 = true)
    (h5 : env.produceOk = false) :
    orderHandler env req r =
      ⟨Reply.json 500 (RespBody.statusMsg "error" "Order processing failed"),
       (decrementStock ((r.incr (rateKey env.currentSecond)).2) (jsShow req.productId) 1).2,
       admissionTrace env r ++ [Action.getKey (idemKey (jsShow req.idempotencyKey)),
         Action.evalDecrement (jsShow req.productId),
         Action.produce "orders" ⟨env.orderId, req.productId, req.userId, env.timestampMs⟩
           false]⟩ := by
  unfold orderHandler
  simp [h1, h2, h3, h4, h5]

theorem Redis.get_set_ne (r : Redis) (k k' : String) (v : Int) (h : k ≠ k') :
    (r.set k v).get k' = r.get k' := by
  rw [Redis.get_set, if_neg h]

theorem incr_rate_get_stock (r : Redis) (n : Nat) (p : String) :
    ((r.incr (rateKey n)).2).get (stockKey p) = r.get (stockKey p) :=
  Redis.get_set_ne r (rateKey n) (stockKey p) _ (rateKey_ne_stockKey n p)

theorem incr_rate_get_idem (r : Redis) (n : Nat) (t : String) :
    ((r.incr (rateKey n)).2).get (idemKey t) = r.get (idemKey t) :=
  Redis.get_set_ne r (rateKey n) (idemKey t) _ (rateKey_ne_idemKey n t)

theorem decrementStock_get_ne (r : Redis) (pid k : String) (h : k ≠ stockKey pid) :
    ((decrementStock r pid 1).2).get k = r.get k := by
  rw [decrementStock_one]
  by_cases hs : 1 ≤ currentStock r pid
  · simp only [if_pos hs]
    exact Redis.get_set_ne r (stockKey pid) k _ (Ne.symm h)
  · simp only [if_neg hs]

/-- Calls the admission step may issue (and nothing past it does). -/
def isAdmissionCall : Action → Bool
  | Action.incrKey _ => true
  | Action.expireKey _ _ => true
  | _ => false

theorem orderHandler_trace_shape (env : OrderEnv) (req : OrderRequest) (r : Redis) :
    ∃ rest : List Action,
      (orderHandler env req r).trace = admissionTrace env r ++ rest
      ∧ rest.all (fun a => !isAdmissionCall a) = true := by
  by_cases h1 : 50 < (r.incr (rateKey env.currentSecond)).1
  · exact ⟨[], by rw [orderHandler_throttled env req r h1]; simp, by simp⟩
  · cases h2 : jsFalsy req.idempotencyKey with
    | true =>
      exact ⟨[], by rw [orderHandler_badRequest env req r h1 h2]; simp, by simp⟩
    | false =>
      cases h3 : (((r.incr (rateKey env.currentSecond)).2).get
          (idemKey (jsShow req.idempotencyKey))).isSome with
      | true =>
        refine ⟨[Action.getKey (idemKey (jsShow req.idempotencyKey))], ?_,
          by simp [isAdmissionCall]⟩
        rw [orderHandler_duplicate env req r h1 h2 h3]
      | false =>
        cases h4 : (decrementStock ((r.incr (rateKey env.currentSecond)).2)
            (jsShow req.productId) 1).1 with
        | false =>
          refine ⟨[Action.getKey (idemKey (jsShow req.idempotencyKey)),
            Action.evalDecrement (jsShow req.productId)], ?_, by simp [isAdmissionCall]⟩
          rw [orderHandler_soldOut env req r h1 h2 h3 h4]
        | true =>
          cases h5 : env.produceOk with
          | true =>
            refine ⟨[Action.getKey (idemKey (jsShow req.idempotencyKey)),
              Action.evalDecrement (jsShow req.productId),
              Action.produce "orders"
                ⟨env.orderId, req.productId, req.userId, env.timestampMs⟩ true,
              Action.setKey (idemKey (jsShow req.idempotencyKey)) "1" 60], ?_,
              by simp [isAdmissionCall]⟩
            rw [orderHandler_success env req r h1 h2 h3 h4 h5]
          | false =>
            refine ⟨[Action.getKey (idemKey (jsShow req.idempotencyKey)),
              Action.evalDecrement (jsShow req.productId),
              Action.produce "orders"
                ⟨env.orderId, req.productId, req.userId, env.timestampMs⟩ false],
              ?_, by simp [isAdmissionCall]⟩
            rw [orderHandler_produceFail env req r h1 h2 h3 h4 h5]

theorem orderHandler_trace_head (env : OrderEnv) (req : OrderRequest) (r : Redis) :
    (orderHandler env req r).trace.head?
      = some (Action.incrKey (rateKey env.currentSecond)) := by
  obtain ⟨rest, hsh, -⟩ := orderHandler_trace_shape env req r
  rw [hsh]
  unfold admissionTrace
  cases h : (r.incr (rateKey env.currentSecond)).1 == 1 <;> simp [h]

theorem orderHandler_expire_iff (env : OrderEnv) (req : OrderRequest) (r : Redis) :
    Action.expireKey (rateKey env.currentSecond) 2 ∈ (orderHandler env req r).trace
      ↔ (r.incr (rateKey env.currentSecond)).1 = 1 := by
  obtain ⟨rest, hsh, hall⟩ := orderHandler_trace_shape env req r
  rw [hsh, List.mem_append]
  constructor
  · rintro (h | h)
    · unfold admissionTrace at h
      cases hb : (r.incr (rateKey env.currentSecond)).1 == 1
      · rw [hb] at h
        simp at h
      · exact beq_iff_eq.mp hb
    · rw [List.all_eq_true] at hall
      have := hall _ h
      simp [isAdmissionCall] at this
  · intro h
    left
    unfold admissionTrace
    simp [h]

/-- C7: admission runs first on every `order` request: the trace of every
run starts with the INCR of the current-second rate bucket (before any
validation), EXPIRE 2 (two one-second bucket widths) is attached exactly on
the bucket's first increment, and when the incremented count exceeds the cap
of 50 the reply is a 302 redirect to the holding location with the product
stock, the idempotency marker and the durable log untouched. -/
theorem order_admission_runs_first
    (env env2 : OrderEnv) (req req2 : OrderRequest) (r r2 : Redis) (p tok : String)
    (h : 50 < (r.incr (rateKey env.currentSecond)).1) :
    (orderHandler env2 req2 r2).trace.head?
        = some (Action.incrKey (rateKey env2.currentSecond))
    ∧ (Action.expireKey (rateKey env2.currentSecond) 2 ∈ (orderHandler env2 req2 r2).trace
        ↔ (r2.incr (rateKey env2.currentSecond)).1 = 1)
    ∧ (orderHandler env req r).reply = Reply.redirect 302 "http://localhost:4000"
    ∧ (orderHandler env req r).redis.get (stockKey p) = r.get (stockKey p)
    ∧ (orderHandler env req r).redis.get (idemKey tok) = r.get (idemKey tok)
    ∧ (orderHandler env req r).trace.any isProduce = false := by
  refine ⟨orderHandler_trace_head env2 req2 r2, orderHandler_expire_iff env2 req2 r2,
    ?_, ?_, ?_, ?_⟩
  · rw [orderHandler_throttled env req r h]
  · rw [orderHandler_throttled env req r h]
    exact incr_rate_get_stock r env.currentSecond p
  · rw [orderHandler_throttled env req r h]
    exact incr_rate_get_idem r env.currentSecond tok
  · rw [orderHandler_throttled env req r h]
    unfold admissionTrace
    cases hb : (r.incr (rateKey env.currentSecond)).1 == 1 <;> simp [hb, isProduce]

theorem order_admission_runs_first_witness :
    50 < ((Redis.mk [(rateKey 7, 50)]).incr (rateKey 7)).1
    ∧ ((orderHandler ⟨3, "u2", 9, true⟩ ⟨none, none, none⟩ (Redis.mk [])).trace.head?
        = some (Action.incrKey (rateKey 3))
      ∧ (Action.expireKey (rateKey 3) 2
          ∈ (orderHandler ⟨3, "u2", 9, true⟩ ⟨none, none, none⟩ (Redis.mk [])).trace
        ↔ ((Redis.mk []).incr (rateKey 3)).1 = 1)
      ∧ (orderHandler ⟨7, "u1", 9, true⟩ ⟨some "ph", some "bob", some "tk"⟩
          (Redis.mk [(rateKey 7, 50)])).reply = Reply.redirect 302 "http://localhost:4000"
      ∧ (orderHandler ⟨7, "u1", 9, true⟩ ⟨some "ph", some "bob", some "tk"⟩
          (Redis.mk [(rateKey 7, 50)])).redis.get (stockKey "ph")
          = (Redis.mk [(rateKey 7, 50)]).get (stockKey "ph")
      ∧ (orderHandler ⟨7, "u1", 9, true⟩ ⟨some "ph", some "bob", some "tk"⟩
          (Redis.mk [(rateKey 7, 50)])).redis.get (idemKey "tk")
          = (Redis.mk [(rateKey 7, 50)]).get (idemKey "tk")
      ∧ (orderHandler ⟨7, "u1", 9, true⟩ ⟨some "ph", some "bob", some "tk"⟩
          (Redis.mk [(rateKey 7, 50)])).trace.any isProduce = false) :=
  ⟨by decide,
   order_admission_runs_first ⟨7, "u1", 9, true⟩ ⟨3, "u2", 9, true⟩
     ⟨some "ph", some "bob", some "tk"⟩ ⟨none, none, none⟩
     (Redis.mk [(rateKey 7, 50)]) (Redis.mk []) "ph" "tk" (by decide)⟩

/-- C4: the idempotency marker is written only in the run's success branch,
with TTL 60 seconds, and strictly after the acknowledged durable-log
produce: any marker write in a trace pins the whole trace to the success
shape, in which the `SET ... EX 60` is the last call, after
`produce(acked)`.  Contrapositively, when the atomic decrement fails or the
produce fails, no marker write occurs. -/
theorem order_marker_only_after_ack
    (env : OrderEnv) (req : OrderRequest) (r : Redis) (k v : String) (t : Nat)
    (h : Action.setKey k v t ∈ (orderHandler env req r).trace) :
    t = 60 ∧ v = "1" ∧ env.produceOk = true
    ∧ (decrementStock ((r.incr (rateKey env.currentSecond)).2)
        (jsShow req.productId) 1).1 = true
    ∧ k = idemKey (jsShow req.idempotencyKey)
    ∧ (orderHandler env req r).trace
        = admissionTrace env r
          ++ [Action.getKey (idemKey (jsShow req.idempotencyKey)),
              Action.evalDecrement (jsShow req.productId),
              Action.produce "orders"
                ⟨env.orderId, req.productId, req.userId, env.timestampMs⟩ true,
              Action.setKey (idemKey (jsShow req.idempotencyKey)) "1" 60] := by
  have hadm : ∀ k' v' t', Action.setKey k' v' t' ∉ admissionTrace env r := by
    intro k' v' t'
    unfold admissionTrace
    cases hb : (r.incr (rateKey env.currentSecond)).1 == 1 <;> simp [hb]
  by_cases h1 : 50 < (r.incr (rateKey env.currentSecond)).1
  · rw [orderHandler_throttled env req r h1] at h
    exact absurd h (hadm k v t)
  cases h2 : jsFalsy req.idempotencyKey with
  | true =>
    rw [orderHandler_badRequest env req r h1 h2] at h
    exact absurd h (hadm k v t)
  | false =>
    cases h3 : (((r.incr (rateKey env.currentSecond)).2).get
        (idemKey (jsShow req.idempotencyKey))).isSome with
    | true =>
      rw [orderHandler_duplicate env req r h1 h2 h3] at h
      rcases List.mem_append.mp h with hx | hx
      · exact absurd hx (hadm k v t)
      · simp at hx
    | false =>
      cases h4 : (decrementStock ((r.incr (rateKey env.currentSecond)).2)
          (jsShow req.productId) 1).1 with
      | false =>
        rw [orderHandler_soldOut env req r h1 h2 h3 h4] at h
        rcases List.mem_append.mp h with hx | hx
        · exact absurd hx (hadm k v t)
        · simp at hx
      | true =>
        cases h5 : env.produceOk with
        | false =>
          rw [orderHandler_produceFail env req r h1 h2 h3 h4 h5] at h
          rcases List.mem_append.mp h with hx | hx
          · exact absurd hx (hadm k v t)
          · simp at hx
        | true =>
          rw [orderHandler_success env req r h1 h2 h3 h4 h5] at h
          rcases List.mem_append.mp h with hx | hx
          · exact absurd hx (hadm k v t)
          · simp at hx
            obtain ⟨hk, hv, ht⟩ := hx
            subst hk
            subst hv
            subst ht
            refine ⟨rfl, rfl, rfl, rfl, rfl, ?_⟩
            rw [orderHandler_success env req r h1 h2 h3 h4 h5]

theorem order_marker_only_after_ack_witness :
    Action.setKey (idemKey "tk") "1" 60
      ∈ (orderHandler ⟨0, "oid1", 5, true⟩ ⟨some "ph", some "bob", some "tk"⟩
          (Redis.mk [(stockKey "ph", 3)])).trace
    ∧ ((60 : Nat) = 60 ∧ ("1" : String) = "1"
      ∧ (⟨0, "oid1", 5, true⟩ : OrderEnv).produceOk = true
      ∧ (decrementStock (((Redis.mk [(stockKey "ph", 3)]).incr (rateKey 0)).2)
          (jsShow (some "ph")) 1).1 = true
      ∧ idemKey "tk" = idemKey (jsShow (some "tk"))
      ∧ (orderHandler ⟨0, "oid1", 5, true⟩ ⟨some "ph", some "bob", some "tk"⟩
          (Redis.mk [(stockKey "ph", 3)])).trace
        = admissionTrace ⟨0, "oid1", 5, true⟩ (Redis.mk [(stockKey "ph", 3)])
          ++ [Action.getKey (idemKey (jsShow (some "tk"))),
              Action.evalDecrement (jsShow (some "ph")),
              Action.produce "orders" ⟨"oid1", some "ph", some "bob", 5⟩ true,
              Action.setKey (idemKey (jsShow (some "tk"))) "1" 60]) :=
  ⟨by decide,
   order_marker_only_after_ack ⟨0, "oid1", 5, true⟩ ⟨some "ph", some "bob", some "tk"⟩
     (Redis.mk [(stockKey "ph", 3)]) (idemKey "tk") "1" 60 (by decide)⟩

theorem currentStock_incr_rate (r : Redis) (n : Nat) (p : String) :
    currentStock ((r.incr (rateKey n)).2) p = currentStock r p := by
  unfold currentStock
  rw [incr_rate_get_stock]

/-- C6: when the idempotency marker for the request's token is already
present, the reply is 200 `{status:"ignored", msg:"Duplicate request"}`, the
product stock key is left unchanged, and no message is produced to the
durable log. -/
theorem order_duplicate_ignored
    (env : OrderEnv) (req : OrderRequest) (r : Redis) (tok p : String)
    (hk : req.idempotencyKey = some tok)
    (hne : (tok == "") = false)
    (hadm : ¬ 50 < (r.incr (rateKey env.currentSecond)).1)
    (hdup : (r.get (idemKey tok)).isSome = true) :
    (orderHandler env req r).reply
        = Reply.json 200 (RespBody.statusMsg "ignored" "Duplicate request")
    ∧ (orderHandler env req r).redis.get (stockKey p) = r.get (stockKey p)
    ∧ (orderHandler env req r).trace.any isProduce = false := by
  have h2 : jsFalsy req.idempotencyKey = false := by rw [hk]; simpa [jsFalsy] using hne
  have hjs : jsShow req.idempotencyKey = tok := by rw [hk]; rfl
  have h3 : (((r.incr (rateKey env.currentSecond)).2).get
      (idemKey (jsShow req.idempotencyKey))).isSome = true := by
    rw [hjs, incr_rate_get_idem]
    exact hdup
  rw [orderHandler_duplicate env req r hadm h2 h3]
  refine ⟨rfl, incr_rate_get_stock r env.currentSecond p, ?_⟩
  unfold admissionTrace
  cases hb : (r.incr (rateKey env.currentSecond)).1 == 1 <;> simp [hb, isProduce]

theorem order_duplicate_ignored_witness :
    ((⟨some "ph", some "bob", some "tk"⟩ : OrderRequest).idempotencyKey = some "tk")
    ∧ (("tk" == "") = false)
    ∧ ¬ 50 < ((Redis.mk [(idemKey "tk", 1)]).incr (rateKey 0)).1
    ∧ (((Redis.mk [(idemKey "tk", 1)]).get (idemKey "tk")).isSome = true)
    ∧ ((orderHandler ⟨0, "oid1", 5, true⟩ ⟨some "ph", some "bob", some "tk"⟩
          (Redis.mk [(idemKey "tk", 1)])).reply
        = Reply.json 200 (RespBody.statusMsg "ignored" "Duplicate request")
      ∧ (orderHandler ⟨0, "oid1", 5, true⟩ ⟨some "ph", some "bob", some "tk"⟩
          (Redis.mk [(idemKey "tk", 1)])).redis.get (stockKey "ph")
          = (Redis.mk [(idemKey "tk", 1)]).get (stockKey "ph")
      ∧ (orderHandler ⟨0, "oid1", 5, true⟩ ⟨some "ph", some "bob", some "tk"⟩
          (Redis.mk [(idemKey "tk", 1)])).trace.any isProduce = false) :=
  ⟨rfl, by decide, by decide, by decide,
   order_duplicate_ignored ⟨0, "oid1", 5, true⟩ ⟨some "ph", some "bob", some "tk"⟩
     (Redis.mk [(idemKey "tk", 1)]) "tk" "ph" rfl (by decide) (by decide) (by decide)⟩

/-- C5: if the durable-log produce fails after a successful atomic
decrement, the reply is 500 `{status:"error", msg:"Order processing
failed"}` and the counter-store decrement is not compensated: the stock
keeps its decremented value (exactly one less) and no marker write or other
compensation is issued. -/
theorem order_produce_failure_no_compensation
    (env : OrderEnv) (req : OrderRequest) (r : Redis) (tok : String)
    (hk : req.idempotencyKey = some tok)
    (hne : (tok == "") = false)
    (hadm : ¬ 50 < (r.incr (rateKey env.currentSecond)).1)
    (hdup : (r.get (idemKey tok)).isSome = false)
    (hstock : 1 ≤ currentStock r (jsShow req.productId))
    (hprod : env.produceOk = false) :
    (orderHandler env req r).reply
        = Reply.json 500 (RespBody.statusMsg "error" "Order processing failed")
    ∧ currentStock (orderHandler env req r).redis (jsShow req.productId)
        = currentStock r (jsShow req.productId) - 1
    ∧ (orderHandler env req r).trace.any isMarkerWrite = false := by
  have h2 : jsFalsy req.idempotencyKey = false := by rw [hk]; simpa [jsFalsy] using hne
  have hjs : jsShow req.idempotencyKey = tok := by rw [hk]; rfl
  have h3 : (((r.incr (rateKey env.currentSecond)).2).get
      (idemKey (jsShow req.idempotencyKey))).isSome = false := by
    rw [hjs, incr_rate_get_idem]
    exact hdup
  have hs1 : 1 ≤ currentStock ((r.incr (rateKey env.currentSecond)).2)
      (jsShow req.productId) := by
    rw [currentStock_incr_rate]
    exact hstock
  have h4 : (decrementStock ((r.incr (rateKey env.currentSecond)).2)
      (jsShow req.productId) 1).1 = true := by
    rw [decrementStock_one, if_pos hs1]
  rw [orderHandler_produceFail env req r hadm h2 h3 h4 hprod]
  refine ⟨rfl, ?_, ?_⟩
  · rw [decrementStock_one, if_pos hs1]
    rw [currentStock_set_self, currentStock_incr_rate]
  · unfold admissionTrace
    cases hb : (r.incr (rateKey env.currentSecond)).1 == 1 <;> simp [hb, isMarkerWrite]

theorem order_produce_failure_no_compensation_witness :
    ((⟨some "ph", some "bob", some "tk"⟩ : OrderRequest).idempotencyKey = some "tk")
    ∧ (("tk" == "") = false)
    ∧ ¬ 50 < ((Redis.mk [(stockKey "ph", 2)]).incr (rateKey 0)).1
    ∧ (((Redis.mk [(stockKey "ph", 2)]).get (idemKey "tk")).isSome = false)
    ∧ 1 ≤ currentStock (Redis.mk [(stockKey "ph", 2)]) (jsShow (some "ph"))
    ∧ (⟨0, "oid1", 5, false⟩ : OrderEnv).produceOk = false
    ∧ ((orderHandler ⟨0, "oid1", 5, false⟩ ⟨some "ph", some "bob", some "tk"⟩
          (Redis.mk [(stockKey "ph", 2)])).reply
        = Reply.json 500 (RespBody.statusMsg "error" "Order processing failed")
      ∧ currentStock (orderHandler ⟨0, "oid1", 5, false⟩ ⟨some "ph", some "bob", some "tk"⟩
          (Redis.mk [(stockKey "ph", 2)])).redis (jsShow (some "ph"))
          = currentStock (Redis.mk [(stockKey "ph", 2)]) (jsShow (some "ph")) - 1
      ∧ (orderHandler ⟨0, "oid1", 5, false⟩ ⟨some "ph", some "bob", some "tk"⟩
          (Redis.mk [(stockKey "ph", 2)])).trace.any isMarkerWrite = false) :=
  ⟨rfl, by decide, by decide, by decide, by decide, rfl,
   order_produce_failure_no_compensation ⟨0, "oid1", 5, false⟩
     ⟨some "ph", some "bob", some "tk"⟩ (Redis.mk [(stockKey "ph", 2)]) "tk"
     rfl (by decide) (by decide) (by decide) (by decide) rfl⟩

/-- C8 counterexample: a request carrying a valid idempotency token but no
`productId` and no `userId` is not rejected with 400; the handler validates
only the idempotency header, so the request proceeds to the reservation
step and is answered 409 sold_out. -/
theorem order_validation_counterexample :
    (orderHandler ⟨0, "oid1", 5, true⟩ ⟨none, none, some "tk"⟩ (Redis.mk [])).reply
      = Reply.json 409 (RespBody.statusMsg "sold_out" "Inventory empty")
    ∧ (orderHandler ⟨0, "oid1", 5, true⟩ ⟨none, none, some "tk"⟩
        (Redis.mk [])).reply.statusCode ≠ 400 := by
  decide

theorem orderHandler_status400_iff (env : OrderEnv) (req : OrderRequest) (r : Redis) :
    (orderHandler env req r).reply.statusCode = 400
      ↔ ¬ 50 < (r.incr (rateKey env.currentSecond)).1
        ∧ jsFalsy req.idempotencyKey = true := by
  by_cases h1 : 50 < (r.incr (rateKey env.currentSecond)).1
  · rw [orderHandler_throttled env req r h1]
    simp [Reply.statusCode, h1]
  · cases h2 : jsFalsy req.idempotencyKey with
    | true =>
      rw [orderHandler_badRequest env req r h1 h2]
      simp [Reply.statusCode, h1]
    | false =>
      cases h3 : (((r.incr (rateKey env.currentSecond)).2).get
          (idemKey (jsShow req.idempotencyKey))).isSome with
      | true =>
        rw [orderHandler_duplicate env req r h1 h2 h3]
        simp [Reply.statusCode]
      | false =>
        cases h4 : (decrementStock ((r.incr (rateKey env.currentSecond)).2)
            (jsShow req.productId) 1).1 with
        | false =>
          rw [orderHandler_soldOut env req r h1 h2 h3 h4]
          simp [Reply.statusCode]
        | true =>
          cases h5 : env.produceOk with
          | true =>
            rw [orderHandler_success env req r h1 h2 h3 h4 h5]
            simp [Reply.statusCode]
          | false =>
            rw [orderHandler_produceFail env req r h1 h2 h3 h4 h5]
            simp [Reply.statusCode]

theorem orderHandler_reaches_decrement (env : OrderEnv) (req : OrderRequest) (r : Redis)
    (h1 : ¬ 50 < (r.incr (rateKey env.currentSecond)).1)
    (h2 : jsFalsy req.idempotencyKey = false)
    (h3 : (((r.incr (rateKey env.currentSecond)).2).get
        (idemKey (jsShow req.idempotencyKey))).isSome = false) :
    Action.evalDecrement (jsShow req.productId) ∈ (orderHandler env req r).trace := by
  cases h4 : (decrementStock ((r.incr (rateKey env.currentSecond)).2)
      (jsShow req.productId) 1).1 with
  | false =>
    rw [orderHandler_soldOut env req r h1 h2 h3 h4]
    simp
  | true =>
    cases h5 : env.produceOk with
    | true =>
      rw [orderHandler_success env req r h1 h2 h3 h4 h5]
      simp
    | false =>
      rw [orderHandler_produceFail env req r h1 h2 h3 h4 h5]
      simp

/-- C8 amended: the handler replies 400 `{error:"Missing Idempotency Key"}`
exactly when admission passes and the idempotency token is absent or empty
(the status-400 biconditional holds of every run); `productId` and
`purchaserId` are never validated: every run whose token is valid and whose
marker is absent reaches the atomic reservation step, whatever `productId`
and `userId` are (missing included).  A 400 request touches neither the
stock counter, the idempotency marker, nor the durable log. -/
theorem order_validation_amended
    (env env2 : OrderEnv) (req req2 : OrderRequest) (r r2 : Redis) (p tok : String)
    (hadm : ¬ 50 < (r.incr (rateKey env.currentSecond)).1)
    (hk : jsFalsy req.idempotencyKey = true) :
    (orderHandler env req r).reply
        = Reply.json 400 (RespBody.errBody "Missing Idempotency Key")
    ∧ (orderHandler env req r).redis.get (stockKey p) = r.get (stockKey p)
    ∧ (orderHandler env req r).redis.get (idemKey tok) = r.get (idemKey tok)
    ∧ (orderHandler env req r).trace.any isProduce = false
    ∧ (orderHandler env req r).trace.any isMarkerWrite = false
    ∧ ((orderHandler env2 req2 r2).reply.statusCode = 400
        ↔ ¬ 50 < (r2.incr (rateKey env2.currentSecond)).1
          ∧ jsFalsy req2.idempotencyKey = true)
    ∧ (¬ 50 < (r2.incr (rateKey env2.currentSecond)).1 →
        jsFalsy req2.idempotencyKey = false →
        (((r2.incr (rateKey env2.currentSecond)).2).get
          (idemKey (jsShow req2.idempotencyKey))).isSome = false →
        Action.evalDecrement (jsShow req2.productId) ∈ (orderHandler env2 req2 r2).trace) := by
  refine ⟨?_, ?_, ?_, ?_, ?_, orderHandler_status400_iff env2 req2 r2,
    fun h1 h2 h3 => orderHandler_reaches_decrement env2 req2 r2 h1 h2 h3⟩
  · rw [orderHandler_badRequest env req r hadm hk]
  · rw [orderHandler_badRequest env req r hadm hk]
    exact incr_rate_get_stock r env.currentSecond p
  · rw [orderHandler_badRequest env req r hadm hk]
    exact incr_rate_get_idem r env.currentSecond tok
  · rw [orderHandler_badRequest env req r hadm hk]
    unfold admissionTrace
    cases hb : (r.incr (rateKey env.currentSecond)).1 == 1 <;> simp [hb, isProduce]
  · rw [orderHandler_badRequest env req r hadm hk]
    unfold admissionTrace
    cases hb : (r.incr (rateKey env.currentSecond)).1 == 1 <;> simp [hb, isMarkerWrite]

theorem order_validation_amended_witness :
    ¬ 50 < ((Redis.mk []).incr (rateKey 0)).1
    ∧ jsFalsy (⟨some "ph", some "bob", none⟩ : OrderRequest).idempotencyKey = true
    ∧ ((orderHandler ⟨0, "oid1", 5, true⟩ ⟨some "ph", some "bob", none⟩ (Redis.mk [])).reply
        = Reply.json 400 (RespBody.errBody "Missing Idempotency Key")
      ∧ (orderHandler ⟨0, "oid1", 5, true⟩ ⟨some "ph", some "bob", none⟩
          (Redis.mk [])).redis.get (stockKey "ph") = (Redis.mk []).get (stockKey "ph")
      ∧ (orderHandler ⟨0, "oid1", 5, true⟩ ⟨some "ph", some "bob", none⟩
          (Redis.mk [])).redis.get (idemKey "tk") = (Redis.mk []).get (idemKey "tk")
      ∧ (orderHandler ⟨0, "oid1", 5, true⟩ ⟨some "ph", some "bob", none⟩
          (Redis.mk [])).trace.any isProduce = false
      ∧ (orderHandler ⟨0, "oid1", 5, true⟩ ⟨some "ph", some "bob", none⟩
          (Redis.mk [])).trace.any isMarkerWrite = false
      ∧ ((orderHandler ⟨1, "oid2", 6, true⟩ ⟨none, none, some "tk"⟩
            (Redis.mk [])).reply.statusCode = 400
          ↔ ¬ 50 < ((Redis.mk []).incr (rateKey 1)).1
            ∧ jsFalsy (⟨none, none, some "tk"⟩ : OrderRequest).idempotencyKey = true)
      ∧ (¬ 50 < ((Redis.mk []).incr (rateKey 1)).1 →
          jsFalsy (⟨none, none, some "tk"⟩ : OrderRequest).idempotencyKey = false →
          ((((Redis.mk []).incr (rateKey 1)).2).get
            (idemKey (jsShow (some "tk")))).isSome = false →
          Action.evalDecrement (jsShow (none : Option String))
            ∈ (orderHandler ⟨1, "oid2", 6, true⟩ ⟨none, none, some "tk"⟩
                (Redis.mk [])).trace)) :=
  ⟨by decide, rfl,
   order_validation_amended ⟨0, "oid1", 5, true⟩ ⟨1, "oid2", 6, true⟩
     ⟨some "ph", some "bob", none⟩ ⟨none, none, some "tk"⟩
     (Redis.mk []) (Redis.mk []) "ph" "tk" (by decide) rfl⟩

/-- C10: for a product whose stock key was never set, the atomic script
reads the missing key as 0, so `decrementStock` returns failure and leaves
the store byte-for-byte unchanged (no key is created), and the order reply
is 409 sold_out rather than an error. -/
theorem order_uninitialized_stock_sold_out
    (env : OrderEnv) (req : OrderRequest) (r : Redis) (tok p : String)
    (hp : req.productId = some p)
    (hk : req.idempotencyKey = some tok)
    (hne : (tok == "") = false)
    (hadm : ¬ 50 < (r.incr (rateKey env.currentSecond)).1)
    (hdup : (r.get (idemKey tok)).isSome = false)
    (hstock : r.get (stockKey p) = none) :
    decrementStock r p 1 = (false, r)
    ∧ (orderHandler env req r).reply
        = Reply.json 409 (RespBody.statusMsg "sold_out" "Inventory empty")
    ∧ (orderHandler env req r).redis.get (stockKey p) = none := by
  have hcur : currentStock r p = 0 := by
    unfold currentStock
    rw [hstock]
    rfl
  have h2 : jsFalsy req.idempotencyKey = false := by rw [hk]; simpa [jsFalsy] using hne
  have hjs : jsShow req.idempotencyKey = tok := by rw [hk]; rfl
  have hjp : jsShow req.productId = p := by rw [hp]; rfl
  have h3 : (((r.incr (rateKey env.currentSecond)).2).get
      (idemKey (jsShow req.idempotencyKey))).isSome = false := by
    rw [hjs, incr_rate_get_idem]
    exact hdup
  have hs1 : ¬ 1 ≤ currentStock ((r.incr (rateKey env.currentSecond)).2) p := by
    rw [currentStock_incr_rate, hcur]
    omega
  have h4 : (decrementStock ((r.incr (rateKey env.currentSecond)).2)
      (jsShow req.productId) 1).1 = false := by
    rw [hjp, decrementStock_one, if_neg hs1]
  refine ⟨?_, ?_, ?_⟩
  · rw [decrementStock_one, if_neg (by rw [hcur]; omega)]
  · rw [orderHandler_soldOut env req r hadm h2 h3 h4]
  · rw [orderHandler_soldOut env req r hadm h2 h3 h4]
    show ((decrementStock ((r.incr (rateKey env.currentSecond)).2)
      (jsShow req.productId) 1).2).get (stockKey p) = none
    rw [hjp, decrementStock_one, if_neg hs1]
    rw [incr_rate_get_stock]
    exact hstock

theorem order_uninitialized_stock_sold_out_witness :
    ((⟨some "ph", some "bob", some "tk"⟩ : OrderRequest).productId = some "ph")
    ∧ ((⟨some "ph", some "bob", some "tk"⟩ : OrderRequest).idempotencyKey = some "tk")
    ∧ (("tk" == "") = false)
    ∧ ¬ 50 < ((Redis.mk []).incr (rateKey 0)).1
    ∧ (((Redis.mk []).get (idemKey "tk")).isSome = false)
    ∧ ((Redis.mk []).get (stockKey "ph") = none)
    ∧ (decrementStock (Redis.mk []) "ph" 1 = (false, Redis.mk [])
      ∧ (orderHandler ⟨0, "oid1", 5, true⟩ ⟨some "ph", some "bob", some "tk"⟩
          (Redis.mk [])).reply
          = Reply.json 409 (RespBody.statusMsg "sold_out" "Inventory empty")
      ∧ (orderHandler ⟨0, "oid1", 5, true⟩ ⟨some "ph", some "bob", some "tk"⟩
          (Redis.mk [])).redis.get (stockKey "ph") = none) :=
  ⟨rfl, rfl, by decide, by decide, by decide, by decide,
   order_uninitialized_stock_sold_out ⟨0, "oid1", 5, true⟩
     ⟨some "ph", some "bob", some "tk"⟩ (Redis.mk []) "tk" "ph"
     rfl rfl (by decide) (by decide) (by decide) (by decide)⟩

/-! ### Fulfillment worker (apps/ingestion-api/src/index.ts, second program)

`eachMessage` parses the payload, opens a transaction, runs the guarded
decrement `UPDATE products SET stock = stock - 1 WHERE id = $1 AND
stock > 0`, and on `rowCount === 0` rolls back and returns; otherwise it
inserts the order row and commits.  Any query error (in particular a
unique-key conflict on `orders.id`) is caught, rolled back, and rethrown.
The `JSON.parse` of the message value sits before the `try` block, so a
parse error propagates out of `eachMessage`.

kafkajs semantics relied on by the offset claims: the consumer resolves and
auto-commits a message's offset exactly when `eachMessage` resolves; when it
throws, the offset is not committed and the message is redelivered. -/

/-- A row of the `orders` table (`created_at` defaults server-side). -/
structure OrderRow where
  id : String
  productId : String
  userId : String
deriving DecidableEq

/-- The record-of-truth: the `products` rows (id, stock) and the `orders`
rows. -/
structure Db where
  products : List (String × Int)
  orders : List OrderRow
deriving DecidableEq

/-- The parsed reservation payload; a field missing from the JSON is
`undefined`, which reaches the SQL layer as NULL. -/
structure WorkerPayload where
  orderId : Option String
  productId : Option String
  userId : Option String
deriving DecidableEq

/-- The consumed log message as `eachMessage` sees `message.value`:
a null value (read as `'{}'` by `message.value?.toString() || '{}'`), a
value that is not valid JSON (`JSON.parse` throws), or a parsed payload. -/
inductive LogMessage where
  | nullValue
  | malformed
  | payload (p : WorkerPayload)
deriving DecidableEq

/-- `UPDATE products SET stock = stock - 1 WHERE id = $1 AND stock > 0`:
the updated table and the row count.  A NULL parameter matches no row. -/
def sqlDecrement (db : Db) (productId : Option String) : Db × Nat :=
  match productId with
  | none => (db, 0)
  | some pid =>
    (⟨db.products.map (fun row =>
        if row.1 == pid && decide (0 < row.2) then (row.1, row.2 - 1) else row),
      db.orders⟩,
     db.products.countP (fun row => row.1 == pid && decide (0 < row.2)))

/-- `INSERT INTO orders (id, product_id, user_id) VALUES ($1, $2, $3)`:
errors on a duplicate primary key or on a NULL for any NOT NULL column. -/
def sqlInsertOrder (db : Db) (p : WorkerPayload) : Option Db :=
  match p.orderId, p.productId, p.userId with
  | some oid, some pid, some uid =>
    if db.orders.any (fun o => o.id == oid) then none
    else some ⟨db.products, db.orders ++ [⟨oid, pid, uid⟩]⟩
  | _, _, _ => none

/-- How one `eachMessage` run ends. -/
inductive WorkerOutcome where
  | committed
  | divergenceSkipped
  | threw
deriving DecidableEq

/-- Whether the run's outcome lets the consumer advance (resolve and
auto-commit) the message's offset: exactly when `eachMessage` resolves
rather than throws. -/
def offsetAdvanced : WorkerOutcome → Bool
  | WorkerOutcome.threw => false
  | _ => true

/-- The transactional body of `eachMessage` for a parsed payload: guarded
decrement, zero-rows rollback-and-return, insert, commit; a query error
rolls the whole transaction back and rethrows. -/
def processPayload (db : Db) (p : WorkerPayload) : Db × WorkerOutcome :=
  let upd := sqlDecrement db p.productId
  if upd.2 == 0 then
    (db, WorkerOutcome.divergenceSkipped)
  else
    match sqlInsertOrder upd.1 p with
    | some db2 => (db2, WorkerOutcome.committed)
    | none => (db, WorkerOutcome.threw)

/-- The worker's `eachMessage` handler over the record-of-truth. -/
def eachMessage (db : Db) (msg : LogMessage) : Db × WorkerOutcome :=
  match msg with
  | LogMessage.malformed => (db, WorkerOutcome.threw)
  | LogMessage.nullValue => processPayload db ⟨none, none, none⟩
  | LogMessage.payload p => processPayload db p

/-- C2 counterexample: replaying the message of an already-persisted order
(`orders` already holds id "o1", durable stock still positive) makes the
insert hit the unique key; the worker rolls the transaction back and
rethrows, so the outcome is `threw` and the offset is NOT advanced — the
claim's "proceeds to commit the consumer offset" fails on the code. -/
theorem worker_conflict_counterexample :
    eachMessage (Db.mk [("p1", 5)] [OrderRow.mk "o1" "p1" "u1"])
        (LogMessage.payload ⟨some "o1", some "p1", some "u1"⟩)
      = (Db.mk [("p1", 5)] [OrderRow.mk "o1" "p1" "u1"], WorkerOutcome.threw)
    ∧ offsetAdvanced WorkerOutcome.threw = false := by
  decide

/-- C2 amended: replaying a message whose reservation id already has an
`orders` row leaves the record-of-truth byte-for-byte unchanged (the
rollback undoes the guarded decrement too, so exactly one row and one net
decrement remain), but the worker rethrows the conflict instead of
committing the offset: the outcome is `threw` and the offset is not
advanced, so the message is redelivered rather than treated as already
processed. -/
theorem worker_replay_amended
    (db : Db) (p : WorkerPayload) (oid : String)
    (hoid : p.orderId = some oid)
    (hdup : db.orders.any (fun o => o.id == oid) = true)
    (hupd : (sqlDecrement db p.productId).2 ≠ 0) :
    eachMessage db (LogMessage.payload p) = (db, WorkerOutcome.threw)
    ∧ offsetAdvanced (eachMessage db (LogMessage.payload p)).2 = false := by
  have hins : sqlInsertOrder (sqlDecrement db p.productId).1 p = none := by
    rcases p with ⟨po, pp, pu⟩
    simp only at hoid
    subst hoid
    cases pp with
    | none => rfl
    | some pid =>
      cases pu with
      | none => rfl
      | some uid =>
        simp only [sqlInsertOrder, sqlDecrement]
        rw [hdup]
        simp
  have hne : ((sqlDecrement db p.productId).2 == 0) = false := by
    cases h0 : (sqlDecrement db p.productId).2 with
    | zero => exact absurd h0 hupd
    | succ m => rfl
  have hmain : eachMessage db (LogMessage.payload p) = (db, WorkerOutcome.threw) := by
    show processPayload db p = (db, WorkerOutcome.threw)
    simp only [processPayload]
    rw [hne, hins]
    simp
  exact ⟨hmain, by rw [hmain]; rfl⟩

theorem worker_replay_amended_witness :
    ((⟨some "o1", some "p1", some "u1"⟩ : WorkerPayload).orderId = some "o1")
    ∧ ((Db.mk [("p1", 5)] [OrderRow.mk "o1" "p1" "u1"]).orders.any
        (fun o => o.id == "o1") = true)
    ∧ ((sqlDecrement (Db.mk [("p1", 5)] [OrderRow.mk "o1" "p1" "u1"])
        (⟨some "o1", some "p1", some "u1"⟩ : WorkerPayload).productId).2 ≠ 0)
    ∧ (eachMessage (Db.mk [("p1", 5)] [OrderRow.mk "o1" "p1" "u1"])
          (LogMessage.payload ⟨some "o1", some "p1", some "u1"⟩)
        = (Db.mk [("p1", 5)] [OrderRow.mk "o1" "p1" "u1"], WorkerOutcome.threw)
      ∧ offsetAdvanced (eachMessage (Db.mk [("p1", 5)] [OrderRow.mk "o1" "p1" "u1"])
          (LogMessage.payload ⟨some "o1", some "p1", some "u1"⟩)).2 = false) :=
  ⟨rfl, by decide, by decide,
   worker_replay_amended (Db.mk [("p1", 5)] [OrderRow.mk "o1" "p1" "u1"])
     ⟨some "o1", some "p1", some "u1"⟩ "o1" rfl (by decide) (by decide)⟩

/-- C3 counterexample: when the guarded decrement affects zero rows
(durable stock already 0), the worker rolls back and RETURNS NORMALLY, so
the outcome is `divergenceSkipped` and the offset IS advanced — the claim's
"does not commit the consumer offset, so the same message is reprocessed"
fails on the code. -/
theorem worker_divergence_counterexample :
    eachMessage (Db.mk [("p1", 0)] [])
        (LogMessage.payload ⟨some "o2", some "p1", some "u1"⟩)
      = (Db.mk [("p1", 0)] [], WorkerOutcome.divergenceSkipped)
    ∧ offsetAdvanced WorkerOutcome.divergenceSkipped = true := by
  decide

/-- C3 amended: when the guarded decrement affects zero rows the worker
rolls back (the record-of-truth is unchanged) and logs the divergence, but
`eachMessage` returns normally, so the consumer offset IS committed and the
message is skipped, not reprocessed. -/
theorem worker_divergence_amended
    (db : Db) (p : WorkerPayload)
    (h : (sqlDecrement db p.productId).2 = 0) :
    eachMessage db (LogMessage.payload p) = (db, WorkerOutcome.divergenceSkipped)
    ∧ offsetAdvanced (eachMessage db (LogMessage.payload p)).2 = true := by
  have hmain : eachMessage db (LogMessage.payload p)
      = (db, WorkerOutcome.divergenceSkipped) := by
    show processPayload db p = (db, WorkerOutcome.divergenceSkipped)
    simp only [processPayload]
    rw [h]
    simp
  exact ⟨hmain, by rw [hmain]; rfl⟩

theorem worker_divergence_amended_witness :
    ((sqlDecrement (Db.mk [("p1", 0)] [])
        (⟨some "o2", some "p1", some "u1"⟩ : WorkerPayload).productId).2 = 0)
    ∧ (eachMessage (Db.mk [("p1", 0)] [])
          (LogMessage.payload ⟨some "o2", some "p1", some "u1"⟩)
        = (Db.mk [("p1", 0)] [], WorkerOutcome.divergenceSkipped)
      ∧ offsetAdvanced (eachMessage (Db.mk [("p1", 0)] [])
          (LogMessage.payload ⟨some "o2", some "p1", some "u1"⟩)).2 = true) :=
  ⟨by decide,
   worker_divergence_amended (Db.mk [("p1", 0)] [])
     ⟨some "o2", some "p1", some "u1"⟩ (by decide)⟩

/-- C9 counterexample: a message whose value fails JSON parsing throws
before the `try` block, so the outcome is `threw` and the offset is NOT
advanced — the claim's "logs the failure and skips the message, still
advancing the consumer offset" fails on the code. -/
theorem worker_poison_counterexample :
    eachMessage (Db.mk [("p1", 5)] []) LogMessage.malformed
      = (Db.mk [("p1", 5)] [], WorkerOutcome.threw)
    ∧ offsetAdvanced WorkerOutcome.threw = false := by
  decide

/-- C9 amended: a message value that fails JSON parsing throws outside the
`try`/`catch`, so the offset is not advanced and the poison message is
redelivered (a reprocessing loop); only a null message value is tolerated —
it parses as `'{}'` and is skipped through the zero-rows path with the
offset advanced. -/
theorem worker_poison_amended (db : Db) :
    eachMessage db LogMessage.malformed = (db, WorkerOutcome.threw)
    ∧ offsetAdvanced (eachMessage db LogMessage.malformed).2 = false
    ∧ eachMessage db LogMessage.nullValue = (db, WorkerOutcome.divergenceSkipped)
    ∧ offsetAdvanced (eachMessage db LogMessage.nullValue).2 = true :=
  ⟨rfl, rfl, rfl, rfl⟩

end FluxGate
